import Mathlib

set_option maxRecDepth 100000

/-
Verification development for the duplicate/similar-issue resolution core of
the project-workflow-guide repository (scripts/start_task.py and
scripts/finish_task.py).

Modelling conventions:
* Titles and file contents are lists of characters (`Str`); the ASCII
  fragment of Python's `str.lower` is modelled by `Char.toLower`.
* Python floats are modelled by exact rationals (`ℚ`); `round(x, 2)` is
  modelled by round-half-to-even on rationals (`pyRound2`).
* `difflib.SequenceMatcher(None, a, b).ratio()` is embedded faithfully:
  the `find_longest_match` dynamic-programming loop (including the
  autojunk rule for sequences of length at least 200 and the two
  non-junk extension loops; the junk set is empty because `isjunk` is
  `None`), the recursive block decomposition of `get_matching_blocks`,
  and `ratio = 2*M/T`.
-/

namespace WorkflowGuide

/-- Character strings of the scripts, modelled as lists of characters. -/
abbrev Str := List Char

/-- Python `str.lower`, on the ASCII fragment used by the scripts. -/
def pyLower (s : Str) : Str := s.map Char.toLower

/-- Occurrence positions of a character in `b`, ascending; this is the
`b2j` table of `difflib.SequenceMatcher` for one character, including the
autojunk rule: for sequences of length at least 200, characters occurring
more than `length / 100 + 1` times are dropped from the table. -/
def bPositions (b : Str) (c : Char) : List Nat :=
  let pos := (b.enum.filter (fun p => p.2 == c)).map Prod.fst
  if 200 ≤ b.length ∧ b.length / 100 + 1 < pos.length then [] else pos

/-- A matching block `(besti, bestj, bestsize)` as returned by
`find_longest_match`. -/
structure MatchBlock where
  besti : Nat
  bestj : Nat
  bestsize : Nat
deriving DecidableEq, Repr

/-- Lookup in the `j2len` association list, with default 0 (Python
`j2len.get(j-1, 0)`). -/
def alGet (l : List (Nat × Nat)) (j : Nat) : Nat :=
  match l.find? (fun p => p.1 == j) with
  | some p => p.2
  | none => 0

/-- One row `i` of the `find_longest_match` main loop: iterate over the
occurrence positions `js` of `a[i]` in `b` (already restricted to
`[blo, bhi)`), building the new `j2len` row and updating the best block.
`k = j2len.get(j-1, 0) + 1`; Python's `j-1` at `j = 0` is `-1`, absent
from the dictionary, hence the explicit `j = 0` case. -/
def flmRow (oldJ : List (Nat × Nat)) (i : Nat) (js : List Nat)
    (b0 : MatchBlock) : List (Nat × Nat) × MatchBlock :=
  js.foldl
    (fun acc j =>
      let k := (if j = 0 then 0 else alGet oldJ (j - 1)) + 1
      let newJ := acc.1 ++ [(j, k)]
      let bb := if acc.2.bestsize < k then ⟨i + 1 - k, j + 1 - k, k⟩ else acc.2
      (newJ, bb))
    ([], b0)

/-- The main dynamic-programming loop of `find_longest_match` over rows
`alo ≤ i < ahi`. -/
def flmLoop (a b : Str) (alo ahi blo bhi : Nat) : MatchBlock :=
  ((List.range' alo (ahi - alo)).foldl
    (fun (st : List (Nat × Nat) × MatchBlock) i =>
      let js := (bPositions b (a.getD i ' ')).filter
        (fun j => decide (blo ≤ j) && decide (j < bhi))
      flmRow st.1 i js st.2)
    ([], ⟨alo, blo, 0⟩)).2

/-- Backward non-junk extension loop of `find_longest_match` (the junk set
is empty since `isjunk = None`): extend the block while the preceding
characters agree.  The fuel argument (initially `besti`) only bounds the
iteration count; the loop stops at `alo` before fuel runs out. -/
def extendBackAux (a b : Str) (alo blo : Nat) :
    Nat → Nat → Nat → Nat → MatchBlock
  | 0, i, j, k => ⟨i, j, k⟩
  | fuel + 1, i, j, k =>
    if alo < i ∧ blo < j ∧ a.getD (i - 1) ' ' = b.getD (j - 1) ' ' then
      extendBackAux a b alo blo fuel (i - 1) (j - 1) (k + 1)
    else ⟨i, j, k⟩

/-- Forward non-junk extension loop of `find_longest_match`. -/
def extendFwdAux (a b : Str) (ahi bhi : Nat) :
    Nat → Nat → Nat → Nat → Nat
  | 0, _, _, k => k
  | fuel + 1, i, j, k =>
    if i + k < ahi ∧ j + k < bhi ∧ a.getD (i + k) ' ' = b.getD (j + k) ' ' then
      extendFwdAux a b ahi bhi fuel i j (k + 1)
    else k

/-- `difflib.SequenceMatcher.find_longest_match` on the range
`a[alo:ahi]`, `b[blo:bhi]`. -/
def findLongestMatch (a b : Str) (alo ahi blo bhi : Nat) : MatchBlock :=
  let m := flmLoop a b alo ahi blo bhi
  let m2 := extendBackAux a b alo blo m.besti m.besti m.bestj m.bestsize
  let k2 := extendFwdAux a b ahi bhi ahi m2.besti m2.bestj m2.bestsize
  ⟨m2.besti, m2.bestj, k2⟩

/-- Total size of all matching blocks (the `M` of `ratio`): the recursive
block decomposition of `get_matching_blocks`.  The fuel (initially
`a.length + 1`) dominates the recursion depth, which is bounded by the
length of the `a`-range since every split strictly shrinks it. -/
def matchedAux (a b : Str) : Nat → Nat → Nat → Nat → Nat → Nat
  | 0, _, _, _, _ => 0
  | fuel + 1, alo, ahi, blo, bhi =>
    let m := findLongestMatch a b alo ahi blo bhi
    if m.bestsize = 0 then 0
    else
      matchedAux a b fuel alo m.besti blo m.bestj + m.bestsize +
        matchedAux a b fuel (m.besti + m.bestsize) ahi (m.bestj + m.bestsize) bhi

/-- Total number of matched characters between `a` and `b`. -/
def matchedTotal (a b : Str) : Nat :=
  matchedAux a b (a.length + 1) 0 a.length 0 b.length

/-- `SequenceMatcher(None, a, b).ratio() = 2*M/T`, and 1.0 when both
sequences are empty (`_calculate_ratio`). -/
def seqRt (a b : Str) : ℚ :=
  if a.length + b.length = 0 then 1
  else (2 * matchedTotal a b : ℚ) / (a.length + b.length : ℚ)

/-- `calculate_similarity` of scripts/start_task.py (lines 64-66):
character-level similarity of the lower-cased strings. -/
def calculate_similarity (text1 text2 : Str) : ℚ :=
  seqRt (pyLower text1) (pyLower text2)

/-- A word character of the regular expression `\w` on the ASCII
fragment: alphanumeric or underscore. -/
def isWordChar (c : Char) : Bool := c.isAlphanum || c == '_'

/-- Helper for `reFindWords`: accumulate the current word (reversed). -/
def reFindWordsAux : Str → Str → List Str
  | [], acc => if acc = [] then [] else [acc.reverse]
  | c :: cs, acc =>
    if isWordChar c then reFindWordsAux cs (c :: acc)
    else if acc = [] then reFindWordsAux cs []
    else acc.reverse :: reFindWordsAux cs []

/-- Python ``re.findall(r'\b\w+\b', s)``: the maximal runs of word
characters of `s`. -/
def reFindWords (s : Str) : List Str := reFindWordsAux s []

/-- The stop-word list of `tokenize_text` (scripts/start_task.py line 71). -/
def stopWords : List Str :=
  [("a").data, ("an").data, ("the").data, ("and").data, ("or").data,
   ("but").data, ("is").data, ("are").data, ("in").data, ("to").data,
   ("for").data, ("with").data, ("on").data, ("at").data]

/-- `tokenize_text` of scripts/start_task.py (lines 68-79): word tokens of
the lower-cased text, dropping stop words and words shorter than 3
characters. -/
def tokenize_text (text : Str) : List Str :=
  let words := reFindWords (pyLower text)
  words.filter (fun w => !(stopWords.contains w) && decide (3 ≤ w.length))

/-- `calculate_token_similarity` of scripts/start_task.py (lines 81-96):
the Jaccard index of the two token sets, weighted by the bonus multiplier
`1 + 0.1 * |intersection|`; 0.0 when either token list is empty. -/
def calculate_token_similarity (tokens1 tokens2 : List Str) : ℚ :=
  if tokens1 = [] ∨ tokens2 = [] then 0
  else
    let set1 := tokens1.toFinset
    let set2 := tokens2.toFinset
    let inter := set1 ∩ set2
    let uni := set1 ∪ set2
    let jaccard : ℚ := if uni = ∅ then 0 else (inter.card : ℚ) / (uni.card : ℚ)
    jaccard * (1 + (1 / 10 : ℚ) * (inter.card : ℚ))

/-- The combined similarity score of scripts/start_task.py lines 142-149:
`0.4 * string_similarity + 0.6 * token_similarity`.  This is the
`score_pair` of the specification. -/
def combinedSimilarity (title issueTitle : Str) : ℚ :=
  (2 / 5 : ℚ) * calculate_similarity title issueTitle +
    (3 / 5 : ℚ) *
      calculate_token_similarity (tokenize_text title) (tokenize_text issueTitle)

/-- Round-half-to-even to an integer, the rounding mode of Python's
`round` (floats are modelled by exact rationals). -/
def roundHalfEven (q : ℚ) : ℤ :=
  let n := ⌊q⌋
  if q - (n : ℚ) < 1 / 2 then n
  else if (1 / 2 : ℚ) < q - (n : ℚ) then n + 1
  else if n % 2 = 0 then n else n + 1

/-- Python `round(x, 2)` on the rational model. -/
def pyRound2 (q : ℚ) : ℚ := (roundHalfEven (q * 100) : ℚ) / 100

/-- A tracker issue as fetched from the issue API (the fields the scripts
read; `created_at` is fetched but never used by the core logic). -/
structure Issue where
  number : Nat
  title : Str
  state : Str
  url : Str
deriving DecidableEq, Repr

/-- Provenance of a scored entry: which discovery channel produced it
(the dictionary carries a `similarity` key or a `relevance` key). -/
inductive Channel
  | similarity
  | relevance
deriving DecidableEq, Repr

/-- A scored issue dictionary as built by `find_similar_issues` (lines
158-165) or `find_related_issues` (lines 286-293); `score` is the value
stored under the `similarity` or `relevance` key. -/
structure ScoredEntry where
  number : Nat
  title : Str
  state : Str
  url : Str
  score : ℚ
  src : Channel
deriving DecidableEq, Repr

instance : Inhabited ScoredEntry := ⟨⟨0, [], [], [], 0, Channel.similarity⟩⟩

/-- Stable insertion for the descending sort: `x` is placed before the
first element whose score is not larger, so equal scores keep their
original relative order. -/
def insertDesc (x : ScoredEntry) : List ScoredEntry → List ScoredEntry
  | [] => [x]
  | y :: ys => if y.score ≤ x.score then x :: y :: ys else y :: insertDesc x ys

/-- Python `list.sort(key=score, reverse=True)`: the stable descending
sort by score (insertion sort is stable, and any two stable descending
sorts of the same list agree). -/
def sortDesc (l : List ScoredEntry) : List ScoredEntry := l.foldr insertDesc []

/-- Python truthiness of the `issue_number` / `exact_match` variables
(`None` and `0` are falsy). -/
def pyTruthyNat : Option Nat → Bool
  | none => false
  | some n => decide (n ≠ 0)

/-- The exact-match accumulation of the loop in scripts/start_task.py
lines 132-139: `exact_match` is overwritten by every case-insensitive
title match, so the last match in list order survives. -/
def exactMatchFold (title : Str) (issues : List Issue) : Option (Nat × Str) :=
  issues.foldl
    (fun acc i =>
      if pyLower i.title = pyLower title then some (i.number, i.url) else acc)
    none

/-- The highest-similarity tracking of lines 129-130 and 151-154:
strictly greater scores replace the incumbent, so the first maximum in
list order survives. -/
def highestFold (title : Str) (issues : List Issue) : ℚ × Option Issue :=
  issues.foldl
    (fun acc i =>
      let c := combinedSimilarity title i.title
      if acc.1 < c then (c, some i) else acc)
    ((0 : ℚ), none)

/-- The similar-issue dictionary built at lines 158-165; the stored
similarity is the combined score rounded to two decimal places. -/
def mkSimEntry (i : Issue) (c : ℚ) : ScoredEntry :=
  ⟨i.number, i.title, i.state, i.url, pyRound2 c, Channel.similarity⟩

/-- The threshold filter of lines 156-165: collect, in list order, a
scored entry for every issue whose combined score reaches the threshold. -/
def simEntriesFold (title : Str) (issues : List Issue) (threshold : ℚ) :
    List ScoredEntry :=
  issues.foldl
    (fun acc i =>
      let c := combinedSimilarity title i.title
      if threshold ≤ c then acc ++ [mkSimEntry i c] else acc)
    []

/-- `find_similar_issues` of scripts/start_task.py (lines 98-175), on an
already-fetched issue list (pull requests filtered out, as at line 119;
the HTTP-error path returning `(None, None, [])` is handled by the
caller model `mainRun`).  Returns `(exact_match, exact_match_url,
similar_issues)`; when no truthy exact match exists and the highest
combined score exceeds 0.85, the highest-scoring issue is returned in
the first two components instead (lines 170-173). -/
def find_similar_issues (title : Str) (issues : List Issue) (threshold : ℚ) :
    Option Nat × Option Str × List ScoredEntry :=
  if issues = [] then (none, none, [])
  else
    let exact := exactMatchFold title issues
    let highest := highestFold title issues
    let similar := sortDesc (simEntriesFold title issues threshold)
    if !pyTruthyNat (exact.map Prod.fst) && decide ((17 / 20 : ℚ) < highest.1)
        && highest.2.isSome then
      (highest.2.map Issue.number, highest.2.map Issue.url, similar)
    else (exact.map Prod.fst, exact.map Prod.snd, similar)

/-- Helper for Python `str.split()`: maximal runs of non-whitespace
characters. -/
def wsSplitAux : Str → Str → List Str
  | [], acc => if acc = [] then [] else [acc.reverse]
  | c :: cs, acc =>
    if c.isWhitespace then
      if acc = [] then wsSplitAux cs [] else acc.reverse :: wsSplitAux cs []
    else wsSplitAux cs (c :: acc)

/-- Python `str.split()` with no argument: split on whitespace runs,
discarding empty pieces. -/
def wsSplit (s : Str) : List Str := wsSplitAux s []

/-- The keyword extraction of `find_related_issues`
(scripts/start_task.py lines 249-252): lower-cased words of the task
title strictly longer than 3 characters, or the whole lower-cased title
when no word qualifies. -/
def extract_keywords (taskTitle : Str) : List Str :=
  let keywords := ((wsSplit taskTitle).filter (fun w => decide (3 < w.length))).map pyLower
  if keywords = [] then [pyLower taskTitle] else keywords

/-- The relevance computation of lines 276-282: word overlap between the
issue-title word set and the keyword set, normalised by the larger of
the two set sizes. -/
def relevanceScore (taskTitle itemTitle : Str) : ℚ :=
  let titleWords := (wsSplit (pyLower itemTitle)).toFinset
  let keywordsSet := (extract_keywords taskTitle).toFinset
  let common := titleWords ∩ keywordsSet
  (common.card : ℚ) / (max keywordsSet.card titleWords.card : ℚ)

/-- The related-issue dictionary built at lines 286-293; the stored
relevance is rounded to two decimal places. -/
def mkRelEntry (i : Issue) (r : ℚ) : ScoredEntry :=
  ⟨i.number, i.title, i.state, i.url, pyRound2 r, Channel.relevance⟩

/-- `find_related_issues` of scripts/start_task.py (lines 242-306), on
already-fetched search results (pull requests skipped, as at lines
271-273): keep issues sharing at least one word with the keyword set
whose relevance reaches the 0.2 threshold, then sort by relevance,
highest first (sorting an empty list is the identity, so the `if
related_issues:` guard around the sort is immaterial). -/
def find_related_issues (taskTitle : Str) (items : List Issue) :
    List ScoredEntry :=
  sortDesc
    (items.foldl
      (fun acc it =>
        let common := (wsSplit (pyLower it.title)).toFinset ∩
          (extract_keywords taskTitle).toFinset
        if 0 < common.card then
          let rel : ℚ := relevanceScore taskTitle it.title
          if (1 / 5 : ℚ) ≤ rel then acc ++ [mkRelEntry it rel] else acc
        else acc)
      [])

/-- The merge of similarity-scored and relevance-scored sets in `main`
(scripts/start_task.py lines 437-445): start from the similarity set and
append every relevance entry whose issue number is not among the
similarity set's numbers (the membership set is computed once, before
the loop). -/
def mergeIssues (similar related : List ScoredEntry) : List ScoredEntry :=
  let similarNumbers := similar.map ScoredEntry.number
  similar ++ related.filter (fun e => !(similarNumbers.contains e.number))

/-- The ranked list of line 448: the merged list sorted descending by
`x.get('similarity', x.get('relevance', 0))`, which is each entry's own
stored score. -/
def rankIssues (similar related : List ScoredEntry) : List ScoredEntry :=
  sortDesc (mergeIssues similar related)

/-- Decidable prefix test on character lists. -/
def isPre : Str → Str → Bool
  | [], _ => true
  | _ :: _, [] => false
  | a :: as, b :: bs => a == b && isPre as bs

/-- Python substring membership `needle in hay`. -/
def containsSub (hay needle : Str) : Bool :=
  (List.range (hay.length + 1)).any (fun i => isPre needle (hay.drop i))

/-- The verification-results section header written by
scripts/finish_task.py. -/
def verificationHeader : Str := ("## Verification Results").data

/-- The per-run entry `"- {verification}\n"` appended by
scripts/finish_task.py line 435. -/
def dashEntry (v : Str) : Str := ('-' :: ' ' :: v) ++ [('\n' : Char)]

/-- The section created on first append by scripts/finish_task.py line
438: `"\n## Verification Results\n- {verification}\n"`. -/
def headerBlock (v : Str) : Str :=
  ('\n' : Char) :: verificationHeader ++ ('\n' : Char) :: dashEntry v

/-- The update of an existing task file by scripts/finish_task.py lines
426-438: read the whole content, seek to the end, and append either a
bare entry (when the section header is already a substring of the
content) or the whole section. -/
def appendVerification (content v : Str) : Str :=
  if containsSub content verificationHeader then content ++ dashEntry v
  else content ++ headerBlock v

/-- The outcomes of the effectful collaborators that `main` of
scripts/start_task.py interacts with, abstracted as plain inputs:
command-line and configuration validity, the fetched issue list (`none`
models the HTTP-error path of `find_similar_issues`, which returns
`(None, None, [])`), the interactive answers, the result of
`create_github_issue` (`none` after three failed attempts), and whether
the local task-file write succeeds (its exception is caught at lines
519-521).  Context priming, related-issue search and code-stub
generation catch their own errors and do not affect the
issue-and-task-file outcome. -/
structure MainInputs where
  hasArg : Bool
  configOk : Bool
  title : Str
  fetchedIssues : Option (List Issue)
  useExistingAnswer : Str
  choiceInput : Option Int
  createResult : Option (Nat × Str)
  writeOk : Bool

/-- The observable outcome of one run of `main`: the process exit code,
whether a new tracker issue was created during the run, the issue number
in play at the end (if any), and whether the local task file was
written. -/
structure MainResult where
  exitCode : Nat
  createdNew : Bool
  issueNumber : Option Nat
  fileWritten : Bool
deriving DecidableEq, Repr

/-- The final task-file phase of `main` (scripts/start_task.py lines
477-521): the write is attempted exactly when a truthy issue number is
in hand; a failing write is caught and the run still ends with exit code
0. -/
def finalPhase (inp : MainInputs) (num : Nat) (createdNew : Bool) : MainResult :=
  ⟨0, createdNew, some num, inp.writeOk⟩

/-- The similar-issue lookup stage of `main` (line 376): the HTTP-error
path of `find_similar_issues` yields `(None, None, [])`. -/
def fetchStage (inp : MainInputs) : Option Nat × Option Str × List ScoredEntry :=
  match inp.fetchedIssues with
  | none => (none, none, [])
  | some issues => find_similar_issues inp.title issues (7 / 10)

/-- The numbered-selection prompt of `main` (lines 393-422): shown only
when similar issues exist; a parsed choice between 1 and the number of
displayed issues (at most five) selects that issue, anything else falls
through to creation. -/
def chooseSimilar (inp : MainInputs) (similar : List ScoredEntry) : Option Nat :=
  if similar ≠ [] then
    match inp.choiceInput with
    | some n =>
      if 1 ≤ n ∧ n ≤ ((similar.take 5).length : Int) then
        some ((similar.getD (n.toNat - 1) default).number)
      else none
    | none => none
  else none

/-- `main` of scripts/start_task.py (lines 358-525) over the abstracted
collaborator outcomes; see `MainInputs`. -/
def mainRun (inp : MainInputs) : MainResult :=
  if !inp.hasArg then ⟨1, false, none, false⟩
  else if !inp.configOk then ⟨1, false, none, false⟩
  else
    let fs := fetchStage inp
    let exact := fs.1
    let similar := fs.2.2
    if pyTruthyNat exact then
      if pyLower inp.useExistingAnswer = [('y' : Char)] then
        finalPhase inp (exact.getD 0) false
      else ⟨0, false, none, false⟩
    else
      let selected : Option Nat := chooseSimilar inp similar
      if pyTruthyNat selected then finalPhase inp (selected.getD 0) false
      else
        match inp.createResult with
        | none => ⟨1, false, none, false⟩
        | some (n, _) =>
          if n = 0 then ⟨1, true, some 0, false⟩
          else finalPhase inp n true

/-- Concrete query title used in the C10 counterexample. -/
def tC10q : Str := ("fix login page bug").data

/-- First concrete issue title of the C10 counterexample (raw combined
score 373/325 ≈ 1.1477, rounding to 1.15). -/
def tC10a : Str := ("bug fix login page aa").data

/-- Second concrete issue title of the C10 counterexample (raw combined
score 1057/925 ≈ 1.1427, rounding to 1.14). -/
def tC10b : Str := ("bug fix login page.").data

/-- Concrete run of `main` for the C8 counterexample: everything
succeeds except the local task-file write. -/
def c8badInput : MainInputs :=
  { hasArg := true, configOk := true, title := ("add search bar").data,
    fetchedIssues := some [], useExistingAnswer := [], choiceInput := none,
    createResult := some (5, ("u").data), writeOk := false }

/-- Concrete run of `main` for the C8 witness: identical to the
counterexample input except that the task-file write succeeds. -/
def c8goodInput : MainInputs :=
  { hasArg := true, configOk := true, title := ("add search bar").data,
    fetchedIssues := some [], useExistingAnswer := [], choiceInput := none,
    createResult := some (5, ("u").data), writeOk := true }

/- ------------------------------------------------------------------
Evaluation and structure lemmas shared by several claims.
------------------------------------------------------------------ -/

/-- Evaluate `seqRt` from the total matched count and the two lengths. -/
theorem seqRt_eval (a b : Str) (m l k : Nat) (hm : matchedTotal a b = m)
    (ha : a.length = l) (hb : b.length = k) (h : ¬ (l + k = 0)) :
    seqRt a b = (2 * (m : ℚ)) / ((l : ℚ) + (k : ℚ)) := by
  unfold seqRt
  rw [hm, ha, hb, if_neg h]

/-- Evaluate `calculate_token_similarity` from the intersection and union
cardinalities of the two token sets. -/
theorem tokSim_eval (t1 t2 : List Str) (i u : Nat)
    (h1 : t1 ≠ []) (h2 : t2 ≠ [])
    (hi : (t1.toFinset ∩ t2.toFinset).card = i)
    (hu : (t1.toFinset ∪ t2.toFinset).card = u)
    (hne : ¬ (t1.toFinset ∪ t2.toFinset = ∅)) :
    calculate_token_similarity t1 t2 =
      ((i : ℚ) / (u : ℚ)) * (1 + (1 / 10 : ℚ) * (i : ℚ)) := by
  unfold calculate_token_similarity
  rw [if_neg (by simp [h1, h2])]
  simp only [hi, hu, if_neg hne]

/-- `seqRt` is nonnegative. -/
theorem seqRt_nonneg (a b : Str) : 0 ≤ seqRt a b := by
  unfold seqRt
  split
  · norm_num
  · positivity

/-- `calculate_token_similarity` is nonnegative. -/
theorem tokSim_nonneg (t1 t2 : List Str) :
    0 ≤ calculate_token_similarity t1 t2 := by
  unfold calculate_token_similarity
  split
  · norm_num
  · refine mul_nonneg ?_ (by positivity)
    split
    · norm_num
    · positivity

/-- The combined similarity score is nonnegative. -/
theorem combinedSimilarity_nonneg (a b : Str) : 0 ≤ combinedSimilarity a b := by
  unfold combinedSimilarity calculate_similarity
  have h1 := seqRt_nonneg (pyLower a) (pyLower b)
  have h2 := tokSim_nonneg (tokenize_text a) (tokenize_text b)
  positivity

/-- Evaluate `roundHalfEven` when the fractional part is below one half. -/
theorem roundHalfEven_eval_lo (q : ℚ) (n : ℤ) (h1 : (n : ℚ) ≤ q)
    (h3 : q < (n : ℚ) + 1) (h2 : q - (n : ℚ) < 1 / 2) :
    roundHalfEven q = n := by
  unfold roundHalfEven
  rw [show ⌊q⌋ = n from Int.floor_eq_iff.mpr ⟨h1, by linarith⟩]
  rw [if_pos h2]

/-- Evaluate `roundHalfEven` when the fractional part is above one half. -/
theorem roundHalfEven_eval_hi (q : ℚ) (n : ℤ) (h1 : (n : ℚ) ≤ q)
    (h3 : q < (n : ℚ) + 1) (h2 : 1 / 2 < q - (n : ℚ)) :
    roundHalfEven q = n + 1 := by
  unfold roundHalfEven
  rw [show ⌊q⌋ = n from Int.floor_eq_iff.mpr ⟨h1, by linarith⟩]
  rw [if_neg (by linarith), if_pos h2]

/-- Evaluate `pyRound2` when the third decimal digit is decisive and the
value lies below the midpoint. -/
theorem pyRound2_eval_lo (q : ℚ) (n : ℤ) (h1 : (n : ℚ) ≤ q * 100)
    (h3 : q * 100 < (n : ℚ) + 1) (h2 : q * 100 - (n : ℚ) < 1 / 2) :
    pyRound2 q = (n : ℚ) / 100 := by
  unfold pyRound2
  rw [roundHalfEven_eval_lo (q * 100) n h1 h3 h2]

/-- Evaluate `pyRound2` when the third decimal digit is decisive and the
value lies above the midpoint. -/
theorem pyRound2_eval_hi (q : ℚ) (n : ℤ) (h1 : (n : ℚ) ≤ q * 100)
    (h3 : q * 100 < (n : ℚ) + 1) (h2 : 1 / 2 < q * 100 - (n : ℚ)) :
    pyRound2 q = ((n : ℚ) + 1) / 100 := by
  unfold pyRound2
  rw [roundHalfEven_eval_hi (q * 100) n h1 h3 h2]
  push_cast
  ring

/-- `pyRound2` preserves nonnegativity. -/
theorem pyRound2_nonneg (q : ℚ) (h : 0 ≤ q) : 0 ≤ pyRound2 q := by
  have hn : (0 : ℤ) ≤ ⌊q * 100⌋ := Int.floor_nonneg.mpr (by positivity)
  unfold pyRound2 roundHalfEven
  have : (0 : ℤ) ≤
      (if q * 100 - (⌊q * 100⌋ : ℚ) < 1 / 2 then ⌊q * 100⌋
       else if (1 / 2 : ℚ) < q * 100 - (⌊q * 100⌋ : ℚ) then ⌊q * 100⌋ + 1
       else if ⌊q * 100⌋ % 2 = 0 then ⌊q * 100⌋ else ⌊q * 100⌋ + 1) := by
    split
    · exact hn
    · split
      · omega
      · split
        · exact hn
        · omega
  have hcast : (0 : ℚ) ≤
      ((if q * 100 - (⌊q * 100⌋ : ℚ) < 1 / 2 then ⌊q * 100⌋
        else if (1 / 2 : ℚ) < q * 100 - (⌊q * 100⌋ : ℚ) then ⌊q * 100⌋ + 1
        else if ⌊q * 100⌋ % 2 = 0 then ⌊q * 100⌋ else ⌊q * 100⌋ + 1 : ℤ) : ℚ) := by
    exact_mod_cast this
  positivity

/-- Inserting with `insertDesc` permutes the element onto the list. -/
theorem insertDesc_perm (x : ScoredEntry) (l : List ScoredEntry) :
    (insertDesc x l).Perm (x :: l) := by
  induction l with
  | nil => exact List.Perm.refl _
  | cons y ys ih =>
    unfold insertDesc
    split
    · exact List.Perm.refl _
    · exact (List.Perm.cons y ih).trans (List.Perm.swap x y ys)

/-- `sortDesc` permutes its input. -/
theorem sortDesc_perm (l : List ScoredEntry) : (sortDesc l).Perm l := by
  induction l with
  | nil => exact List.Perm.refl _
  | cons x xs ih =>
    simp only [sortDesc, List.foldr_cons]
    exact (insertDesc_perm x _).trans (List.Perm.cons x ih)

/-- Membership is preserved by `sortDesc`. -/
theorem mem_sortDesc {e : ScoredEntry} {l : List ScoredEntry} :
    e ∈ sortDesc l ↔ e ∈ l :=
  (sortDesc_perm l).mem_iff

/-- The threshold fold of `find_similar_issues` collects exactly the
entries of the issues whose combined score reaches the threshold, in
list order. -/
theorem simEntriesFold_eq (title : Str) (issues : List Issue) (th : ℚ) :
    simEntriesFold title issues th =
      (issues.filter (fun i => decide (th ≤ combinedSimilarity title i.title))).map
        (fun i => mkSimEntry i (combinedSimilarity title i.title)) := by
  suffices h : ∀ (l : List Issue) (acc : List ScoredEntry),
      l.foldl
        (fun acc i =>
          let c := combinedSimilarity title i.title
          if th ≤ c then acc ++ [mkSimEntry i c] else acc) acc
      = acc ++ (l.filter (fun i => decide (th ≤ combinedSimilarity title i.title))).map
          (fun i => mkSimEntry i (combinedSimilarity title i.title)) by
    simpa [simEntriesFold] using h issues []
  intro l
  induction l with
  | nil => intro acc; simp
  | cons i rest ih =>
    intro acc
    simp only [List.foldl_cons, List.filter_cons]
    by_cases h : th ≤ combinedSimilarity title i.title
    · simp [h, ih]
    · simp [h, ih]

/-- With a nonempty issue list, the third component returned by
`find_similar_issues` is the sorted thresholded entry list. -/
theorem find_similar_snd (title : Str) (issues : List Issue) (th : ℚ)
    (h : issues ≠ []) :
    (find_similar_issues title issues th).2.2 =
      sortDesc (simEntriesFold title issues th) := by
  unfold find_similar_issues
  rw [if_neg h]
  dsimp only
  split <;> rfl

/-- With a nonempty issue list and a truthy exact match, the first
component returned by `find_similar_issues` is the exact match's
number. -/
theorem find_similar_fst (title : Str) (issues : List Issue) (th : ℚ)
    (h : issues ≠ [])
    (ht : pyTruthyNat ((exactMatchFold title issues).map Prod.fst) = true) :
    (find_similar_issues title issues th).1 =
      (exactMatchFold title issues).map Prod.fst := by
  unfold find_similar_issues
  rw [if_neg h]
  rw [if_neg (by simp [ht])]

/-- `exactMatchFold` keeps the last case-insensitive match in list
order (the loop at scripts/start_task.py lines 132-139 overwrites
`exact_match` on every match and never breaks). -/
theorem exactMatchFold_eq (title : Str) (issues : List Issue) :
    exactMatchFold title issues =
      ((issues.filter (fun i => decide (pyLower i.title = pyLower title))).getLast?).elim
        none (fun i => some (i.number, i.url)) := by
  suffices h : ∀ (l : List Issue) (acc : Option (Nat × Str)),
      l.foldl
        (fun acc i =>
          if pyLower i.title = pyLower title then some (i.number, i.url) else acc) acc
      = ((l.filter (fun i => decide (pyLower i.title = pyLower title))).getLast?).elim
          acc (fun i => some (i.number, i.url)) by
    simpa [exactMatchFold] using h issues none
  intro l
  induction l with
  | nil => intro acc; simp
  | cons i rest ih =>
    intro acc
    simp only [List.foldl_cons, List.filter_cons]
    by_cases h : pyLower i.title = pyLower title
    · rw [if_pos h]
      simp only [h]
      cases hf : rest.filter (fun i => decide (pyLower i.title = pyLower title)) with
      | nil => simp [ih, hf]
      | cons j js =>
        cases hg : (j :: js).getLast? with
        | none => exact absurd (List.getLast?_eq_none_iff.mp hg) (by simp)
        | some z => simp [ih, hf, List.getLast?_cons_cons, hg]
    · rw [if_neg h]
      simp only [h]
      simpa using ih acc

/-- Concrete evaluation: the character self-similarity of `fix` is 1. -/
theorem cs_fix_self : calculate_similarity ("fix").data ("fix").data = 1 := by
  unfold calculate_similarity
  rw [seqRt_eval _ _ 3 3 3 (by decide) (by decide) (by decide) (by norm_num)]
  norm_num

/-- Concrete evaluation: the combined score of the title `fix` with
itself is 53/50 = 1.06 (character part 0.4, token part 0.6 * 1.1). -/
theorem combined_fix_fix :
    combinedSimilarity ("fix").data ("fix").data = 53 / 50 := by
  unfold combinedSimilarity
  rw [cs_fix_self,
    tokSim_eval _ _ 1 1 (by decide) (by decide) (by decide) (by decide) (by decide)]
  norm_num

/-- C1 (counterexample): the non-empty title `fix` does not score 1.0
against itself; its combined self-score is 1.06, because the token-level
bonus multiplier `1 + 0.1 * |intersection|` pushes the token part of a
perfect match above 1. -/
theorem c1_counterexample :
    ("fix").data ≠ [] ∧
    combinedSimilarity ("fix").data ("fix").data ≠ 1 := by
  refine ⟨by decide, ?_⟩
  rw [combined_fix_fix]
  norm_num

/-- C1 (amended): for a title with at least one meaningful token and
character self-similarity 1 (as holds for every title shorter than 200
characters), the combined self-score is `1 + 0.06 * k` with `k` the
number of distinct tokens — always strictly greater than 1, never equal
to 1.0 as the original claim stated. -/
theorem c1_self_score (t : Str) (h1 : tokenize_text t ≠ [])
    (h2 : calculate_similarity t t = 1) :
    combinedSimilarity t t =
      1 + (3 / 50 : ℚ) * ((tokenize_text t).toFinset.card : ℚ) ∧
    1 < combinedSimilarity t t := by
  have hne : (tokenize_text t).toFinset ≠ ∅ := by
    simpa [List.toFinset_eq_empty_iff] using h1
  have hk : 0 < (tokenize_text t).toFinset.card := by
    rw [Finset.card_pos, Finset.nonempty_iff_ne_empty]
    exact hne
  have hkq : (1 : ℚ) ≤ ((tokenize_text t).toFinset.card : ℚ) := by
    exact_mod_cast hk
  have hcz : ((tokenize_text t).toFinset.card : ℚ) ≠ 0 := by
    exact ne_of_gt (by linarith)
  have htok : calculate_token_similarity (tokenize_text t) (tokenize_text t) =
      (((tokenize_text t).toFinset.card : ℚ) / ((tokenize_text t).toFinset.card : ℚ)) *
        (1 + (1 / 10 : ℚ) * ((tokenize_text t).toFinset.card : ℚ)) :=
    tokSim_eval _ _ _ _ h1 h1 (by rw [Finset.inter_self])
      (by rw [Finset.union_self]) (by rw [Finset.union_self]; exact hne)
  have e : combinedSimilarity t t =
      1 + (3 / 50 : ℚ) * ((tokenize_text t).toFinset.card : ℚ) := by
    unfold combinedSimilarity
    rw [h2, htok, div_self hcz]
    ring
  exact ⟨e, by rw [e]; linarith⟩

/-- C1 (witness): the amended statement applied at the concrete title
`fix`, whose self-score is 1 + 0.06 * 1 = 1.06. -/
theorem c1_self_score_witness :
    tokenize_text ("fix").data ≠ [] ∧
    calculate_similarity ("fix").data ("fix").data = 1 ∧
    (combinedSimilarity ("fix").data ("fix").data =
        1 + (3 / 50 : ℚ) * (((tokenize_text ("fix").data).toFinset.card : ℚ)) ∧
      1 < combinedSimilarity ("fix").data ("fix").data) :=
  ⟨by decide, cs_fix_self, c1_self_score ("fix").data (by decide) cs_fix_self⟩

/-- Concrete evaluation: the character self-similarity of `fix bug` is 1. -/
theorem cs_fixbug_self :
    calculate_similarity ("fix bug").data ("fix bug").data = 1 := by
  unfold calculate_similarity
  rw [seqRt_eval _ _ 7 7 7 (by decide) (by decide) (by decide) (by norm_num)]
  norm_num

/-- Concrete evaluation: the combined score of the title `fix bug` with
itself is 28/25 = 1.12. -/
theorem combined_fixbug_self :
    combinedSimilarity ("fix bug").data ("fix bug").data = 28 / 25 := by
  unfold combinedSimilarity
  rw [cs_fixbug_self,
    tokSim_eval _ _ 2 2 (by decide) (by decide) (by decide) (by decide) (by decide)]
  norm_num

/-- Concrete evaluation: rounding 1.12 to two decimals is the identity. -/
theorem round_28_25 : pyRound2 (28 / 25 : ℚ) = 28 / 25 := by
  rw [pyRound2_eval_lo (28 / 25 : ℚ) 112 (by norm_num) (by norm_num) (by norm_num)]
  norm_num

/-- C2 (counterexample): combined scores are not bounded by 1, and the
matcher stores such a score: querying `fix bug` against an issue titled
`fix bug` produces a `ScoredIssue` whose stored similarity is 1.12. -/
theorem c2_counterexample :
    (1 : ℚ) < combinedSimilarity ("fix bug").data ("fix bug").data ∧
    ∃ e ∈ (find_similar_issues ("fix bug").data
        [⟨1, ("fix bug").data, ("open").data, ("u").data⟩] (7 / 10)).2.2,
      (1 : ℚ) < e.score := by
  constructor
  · rw [combined_fixbug_self]; norm_num
  · rw [find_similar_snd _ _ _ (by simp), simEntriesFold_eq]
    refine ⟨mkSimEntry ⟨1, ("fix bug").data, ("open").data, ("u").data⟩
      (combinedSimilarity ("fix bug").data ("fix bug").data), ?_, ?_⟩
    · rw [mem_sortDesc]
      simp only [List.mem_map, List.mem_filter]
      refine ⟨⟨1, ("fix bug").data, ("open").data, ("u").data⟩, ⟨by simp, ?_⟩, rfl⟩
      rw [combined_fixbug_self]
      norm_num
    · show (1 : ℚ) < pyRound2 (combinedSimilarity ("fix bug").data ("fix bug").data)
      rw [combined_fixbug_self, round_28_25]
      norm_num

/-- C2 (amended): combined similarity scores and the scores stored in
the matcher's `ScoredIssue` entries are nonnegative, but — contrary to
the original claim — they are not bounded above by 1 (see the
counterexample, where a self-match scores 1.12). -/
theorem c2_scores :
    (∀ a b : Str, 0 ≤ combinedSimilarity a b) ∧
    ∀ (t : Str) (issues : List Issue) (th : ℚ) (e : ScoredEntry),
      e ∈ (find_similar_issues t issues th).2.2 → 0 ≤ e.score := by
  refine ⟨combinedSimilarity_nonneg, ?_⟩
  intro t issues th e he
  by_cases h : issues = []
  · subst h
    unfold find_similar_issues at he
    simp at he
  · rw [find_similar_snd t issues th h, mem_sortDesc, simEntriesFold_eq] at he
    simp only [List.mem_map, List.mem_filter] at he
    obtain ⟨i, ⟨_, _⟩, rfl⟩ := he
    exact pyRound2_nonneg _ (combinedSimilarity_nonneg _ _)

/-- C2 (witness): the amended statement applied at a concrete entry of
a concrete matcher run. -/
theorem c2_scores_witness :
    0 ≤ (mkSimEntry ⟨1, ("fix bug").data, ("open").data, ("u").data⟩
      (combinedSimilarity ("fix bug").data ("fix bug").data)).score :=
  c2_scores.2 ("fix bug").data
    [⟨1, ("fix bug").data, ("open").data, ("u").data⟩] (7 / 10) _
    (by
      rw [find_similar_snd _ _ _ (by simp), mem_sortDesc, simEntriesFold_eq]
      simp only [List.mem_map, List.mem_filter]
      refine ⟨⟨1, ("fix bug").data, ("open").data, ("u").data⟩, ⟨by simp, ?_⟩, rfl⟩
      rw [combined_fixbug_self]
      norm_num)

/-- C3 (counterexample): with two issues whose titles both equal the
candidate `a` case-insensitively, the matcher returns issue 2 — the
last match in list order — not issue 1, because the loop overwrites
`exact_match` on every match and never breaks. -/
theorem c3_counterexample :
    (find_similar_issues ("a").data
        [⟨1, ("A").data, ("open").data, ("u1").data⟩,
         ⟨2, ("a").data, ("open").data, ("u2").data⟩] (7 / 10)).1 ≠ some 1 ∧
    (find_similar_issues ("a").data
        [⟨1, ("A").data, ("open").data, ("u1").data⟩,
         ⟨2, ("a").data, ("open").data, ("u2").data⟩] (7 / 10)).1 = some 2 := by
  have h1 : exactMatchFold ("a").data
      [⟨1, ("A").data, ("open").data, ("u1").data⟩,
       ⟨2, ("a").data, ("open").data, ("u2").data⟩] = some (2, ("u2").data) := by
    decide
  have h2 : (find_similar_issues ("a").data
      [⟨1, ("A").data, ("open").data, ("u1").data⟩,
       ⟨2, ("a").data, ("open").data, ("u2").data⟩] (7 / 10)).1 = some 2 := by
    rw [find_similar_fst _ _ _ (by simp) (by rw [h1]; decide), h1]
    rfl
  exact ⟨by rw [h2]; simp, h2⟩

/-- C3 (amended): when the issue list contains case-insensitive title
matches, `find_similar_issues` does return the exact match regardless of
the other issues present, but when several issues share the title it is
the last one in list order that wins (ties broken by last occurrence,
not first occurrence as the original claim stated); the returned number
must be nonzero for Python truthiness not to discard it. -/
theorem c3_last_match (title : Str) (issues : List Issue) (th : ℚ) (m : Issue)
    (hm : (issues.filter (fun i => decide (pyLower i.title = pyLower title))).getLast?
        = some m)
    (hz : m.number ≠ 0) :
    (find_similar_issues title issues th).1 = some m.number := by
  have hne : issues ≠ [] := by
    intro h
    subst h
    simp at hm
  have hex : exactMatchFold title issues = some (m.number, m.url) := by
    rw [exactMatchFold_eq, hm]
    rfl
  have ht : pyTruthyNat ((exactMatchFold title issues).map Prod.fst) = true := by
    rw [hex]
    simp [pyTruthyNat, hz]
  rw [find_similar_fst title issues th hne ht, hex]
  rfl

/-- C3 (witness): the amended statement applied at a concrete list with
a single case-insensitive match among unrelated issues. -/
theorem c3_last_match_witness :
    (find_similar_issues ("Fix Login").data
        [⟨7, ("deploy docs").data, ("open").data, ("u1").data⟩,
         ⟨9, ("fix login").data, ("closed").data, ("u2").data⟩,
         ⟨11, ("menu crash").data, ("open").data, ("u3").data⟩] (7 / 10)).1
      = some 9 :=
  c3_last_match ("Fix Login").data
    [⟨7, ("deploy docs").data, ("open").data, ("u1").data⟩,
     ⟨9, ("fix login").data, ("closed").data, ("u2").data⟩,
     ⟨11, ("menu crash").data, ("open").data, ("u3").data⟩] (7 / 10)
    ⟨9, ("fix login").data, ("closed").data, ("u2").data⟩ (by decide) (by decide)

/-- Boolean list membership agrees with propositional membership for
issue-number lists. -/
theorem containsNumber_iff (l : List Nat) (n : Nat) :
    l.contains n = true ↔ n ∈ l :=
  List.elem_iff

/-- C4: merging a similarity set and a relevance set whose identifier
lists are each duplicate-free yields a ranked list with no duplicate
identifiers; an identifier present in the similarity set keeps exactly
its similarity entries (the relevance duplicates are dropped); and when
every relevance identifier already occurs in the similarity set the
merge returns the similarity set unchanged. -/
theorem c4_merge_dedup (A B : List ScoredEntry)
    (hA : (A.map ScoredEntry.number).Nodup)
    (hB : (B.map ScoredEntry.number).Nodup) :
    ((rankIssues A B).map ScoredEntry.number).Nodup ∧
    (∀ n, n ∈ A.map ScoredEntry.number →
      (mergeIssues A B).filter (fun e => decide (e.number = n)) =
        A.filter (fun e => decide (e.number = n))) ∧
    ((∀ b ∈ B, b.number ∈ A.map ScoredEntry.number) → mergeIssues A B = A) := by
  have hmerge : mergeIssues A B =
      A ++ B.filter (fun e => !((A.map ScoredEntry.number).contains e.number)) := rfl
  refine ⟨?_, ?_, ?_⟩
  · have hperm : ((rankIssues A B).map ScoredEntry.number).Perm
        ((mergeIssues A B).map ScoredEntry.number) :=
      (sortDesc_perm (mergeIssues A B)).map ScoredEntry.number
    rw [hperm.nodup_iff, hmerge, List.map_append, List.nodup_append]
    refine ⟨hA, hB.sublist ((List.filter_sublist B).map ScoredEntry.number), ?_⟩
    intro n hnA hnB
    rw [List.mem_map] at hnB
    obtain ⟨e, heB, rfl⟩ := hnB
    rw [List.mem_filter] at heB
    have h2 := heB.2
    simp only [Bool.not_eq_true'] at h2
    exact absurd ((containsNumber_iff _ _).mpr hnA) (by rw [h2]; simp)
  · intro n hn
    rw [hmerge, List.filter_append]
    have hempty : (B.filter
        (fun e => !((A.map ScoredEntry.number).contains e.number))).filter
          (fun e => decide (e.number = n)) = [] := by
      rw [List.filter_eq_nil_iff]
      intro e he
      rw [List.mem_filter] at he
      have h2 := he.2
      simp only [Bool.not_eq_true'] at h2
      intro hc
      rw [decide_eq_true_eq] at hc
      rw [hc] at h2
      exact absurd ((containsNumber_iff _ _).mpr hn) (by rw [h2]; simp)
    rw [hempty, List.append_nil]
  · intro hsub
    rw [hmerge]
    have : B.filter (fun e => !((A.map ScoredEntry.number).contains e.number)) = [] := by
      rw [List.filter_eq_nil_iff]
      intro e he hfalse
      simp only [Bool.not_eq_true'] at hfalse
      exact absurd ((containsNumber_iff _ _).mpr (hsub e he)) (by rw [hfalse]; simp)
    rw [this, List.append_nil]

/-- C4 (witness): the merge invariants applied at a concrete pair of
sets where the relevance set repeats a similarity identifier. -/
theorem c4_merge_dedup_witness :
    ((rankIssues
        [⟨1, ("a").data, ("open").data, ("u").data, 9 / 10, Channel.similarity⟩]
        [⟨1, ("a").data, ("open").data, ("u").data, 1 / 2, Channel.relevance⟩]).map
          ScoredEntry.number).Nodup ∧
    mergeIssues
        [⟨1, ("a").data, ("open").data, ("u").data, 9 / 10, Channel.similarity⟩]
        [⟨1, ("a").data, ("open").data, ("u").data, 1 / 2, Channel.relevance⟩] =
      [⟨1, ("a").data, ("open").data, ("u").data, 9 / 10, Channel.similarity⟩] :=
  ⟨(c4_merge_dedup _ _ (by decide) (by decide)).1,
   (c4_merge_dedup _ _ (by decide) (by decide)).2.2 (by decide)⟩

/-- `insertDesc` preserves descending sortedness. -/
theorem insertDesc_sorted (x : ScoredEntry) (l : List ScoredEntry)
    (h : l.Pairwise (fun u v => v.score ≤ u.score)) :
    (insertDesc x l).Pairwise (fun u v => v.score ≤ u.score) := by
  induction l with
  | nil => simp [insertDesc]
  | cons y ys ih =>
    rw [List.pairwise_cons] at h
    obtain ⟨hy, hys⟩ := h
    unfold insertDesc
    split
    · rw [List.pairwise_cons]
      refine ⟨?_, List.pairwise_cons.mpr ⟨hy, hys⟩⟩
      intro z hz
      rcases List.mem_cons.mp hz with rfl | hz2
      · assumption
      · exact le_trans (hy z hz2) (by assumption)
    · rw [List.pairwise_cons]
      refine ⟨?_, ih hys⟩
      intro z hz
      rcases List.mem_cons.mp ((insertDesc_perm x ys).mem_iff.mp hz) with rfl | hz2
      · exact le_of_not_le (by assumption)
      · exact hy z hz2

/-- `sortDesc` sorts descending by score. -/
theorem sortDesc_sorted (l : List ScoredEntry) :
    (sortDesc l).Pairwise (fun u v => v.score ≤ u.score) := by
  induction l with
  | nil => simp [sortDesc]
  | cons x xs ih =>
    simp only [sortDesc, List.foldr_cons] at *
    exact insertDesc_sorted x _ ih

/-- Filtering by an exact score commutes with `insertDesc`: the inserted
element is placed before every equal-scored element, so it lands at the
head of its score class. -/
theorem insertDesc_filter (x : ScoredEntry) (l : List ScoredEntry) (s : ℚ) :
    (insertDesc x l).filter (fun e => decide (e.score = s)) =
      if x.score = s then x :: l.filter (fun e => decide (e.score = s))
      else l.filter (fun e => decide (e.score = s)) := by
  induction l with
  | nil =>
    simp only [insertDesc, List.filter]
    by_cases hx : x.score = s
    · simp [hx]
    · simp [hx]
  | cons y ys ih =>
    unfold insertDesc
    split
    · by_cases hx : x.score = s
      · simp [List.filter_cons, hx]
      · simp [List.filter_cons, hx]
    · by_cases hx : x.score = s
      · have hy : ¬(y.score = s) := by
          intro h
          exact (by assumption : ¬(y.score ≤ x.score)) (by rw [h, hx])
        simp [List.filter_cons, hx, hy, ih]
      · simp [List.filter_cons, hx, ih]

/-- Filtering by an exact score is invariant under `sortDesc`: the
stable sort preserves the relative order within every score class. -/
theorem sortDesc_filter (l : List ScoredEntry) (s : ℚ) :
    (sortDesc l).filter (fun e => decide (e.score = s)) =
      l.filter (fun e => decide (e.score = s)) := by
  induction l with
  | nil => rfl
  | cons x xs ih =>
    simp only [sortDesc, List.foldr_cons] at *
    rw [insertDesc_filter, List.filter_cons]
    by_cases hx : x.score = s
    · simp [hx, ih]
    · simp [hx, ih]

/-- C6: the ranked merged list is sorted descending by the score each
entry was constructed with, the sort is stable (each exact score class
keeps its pre-sort relative order), the ranked list is a permutation of
the merged list, and every ranked entry is one of the input entries. -/
theorem c6_rank_sorted_stable (A B : List ScoredEntry) :
    (rankIssues A B).Pairwise (fun u v => v.score ≤ u.score) ∧
    (∀ s : ℚ, (rankIssues A B).filter (fun e => decide (e.score = s)) =
      (mergeIssues A B).filter (fun e => decide (e.score = s))) ∧
    (rankIssues A B).Perm (mergeIssues A B) ∧
    ∀ e ∈ rankIssues A B, e ∈ A ∨ e ∈ B := by
  refine ⟨sortDesc_sorted _, fun s => sortDesc_filter _ s, sortDesc_perm _, ?_⟩
  intro e he
  have he2 : e ∈ mergeIssues A B := mem_sortDesc.mp he
  rcases List.mem_append.mp he2 with h | h
  · exact Or.inl h
  · exact Or.inr (List.mem_of_mem_filter h)

/-- C6 (witness): the membership conjunct applied at a concrete ranked
merge. -/
theorem c6_rank_sorted_stable_witness :
    (⟨2, ("b").data, ("open").data, ("u2").data, 1 / 2, Channel.relevance⟩ : ScoredEntry) ∈
        [⟨1, ("a").data, ("open").data, ("u1").data, 9 / 10, Channel.similarity⟩] ∨
      (⟨2, ("b").data, ("open").data, ("u2").data, 1 / 2, Channel.relevance⟩ : ScoredEntry) ∈
        [⟨2, ("b").data, ("open").data, ("u2").data, 1 / 2, Channel.relevance⟩] :=
  (c6_rank_sorted_stable
      [⟨1, ("a").data, ("open").data, ("u1").data, 9 / 10, Channel.similarity⟩]
      [⟨2, ("b").data, ("open").data, ("u2").data, 1 / 2, Channel.relevance⟩]).2.2.2
    _ (by
      rw [rankIssues, mem_sortDesc]
      exact List.mem_append.mpr (Or.inr
        (List.mem_filter.mpr ⟨List.mem_singleton_self _, by decide⟩)))

/-- The token-level similarity is symmetric in its two token lists. -/
theorem tokSim_symm (t1 t2 : List Str) :
    calculate_token_similarity t1 t2 = calculate_token_similarity t2 t1 := by
  unfold calculate_token_similarity
  by_cases h1 : t1 = []
  · by_cases h2 : t2 = [] <;> simp [h1, h2]
  · by_cases h2 : t2 = []
    · simp [h1, h2]
    · rw [if_neg (by simp [h1, h2]), if_neg (by simp [h1, h2])]
      dsimp only
      rw [Finset.inter_comm t1.toFinset t2.toFinset,
        Finset.union_comm t1.toFinset t2.toFinset]

/-- C5 (amended): the token-level similarity is symmetric, and the
combined score is symmetric whenever the character-level
`SequenceMatcher` ratios of the two argument orders agree — but that
ratio itself is order-dependent (see the counterexample), so the
combined score is not symmetric in general. -/
theorem c5_symmetry (a b : Str) :
    calculate_token_similarity (tokenize_text a) (tokenize_text b) =
      calculate_token_similarity (tokenize_text b) (tokenize_text a) ∧
    (calculate_similarity a b = calculate_similarity b a →
      combinedSimilarity a b = combinedSimilarity b a) := by
  refine ⟨tokSim_symm _ _, fun hcs => ?_⟩
  unfold combinedSimilarity
  rw [hcs, tokSim_symm]

/-- Concrete evaluation: the character ratio of `tide` against `diet`
is 1/4 (the greedy longest-match recursion matches only the `t`). -/
theorem cs_tide_diet : calculate_similarity ("tide").data ("diet").data = 1 / 4 := by
  unfold calculate_similarity
  rw [seqRt_eval _ _ 1 4 4 (by decide) (by decide) (by decide) (by norm_num)]
  norm_num

/-- Concrete evaluation: the character ratio of `diet` against `tide`
is 1/2 (the greedy longest-match recursion matches `d` and then `e`). -/
theorem cs_diet_tide : calculate_similarity ("diet").data ("tide").data = 1 / 2 := by
  unfold calculate_similarity
  rw [seqRt_eval _ _ 2 4 4 (by decide) (by decide) (by decide) (by norm_num)]
  norm_num

/-- Concrete evaluation: `tide` and `diet` share no tokens. -/
theorem tok_tide_diet :
    calculate_token_similarity (tokenize_text ("tide").data)
      (tokenize_text ("diet").data) = 0 := by
  rw [tokSim_eval _ _ 0 2 (by decide) (by decide) (by decide) (by decide) (by decide)]
  norm_num

/-- Concrete evaluation: `diet` and `tide` share no tokens. -/
theorem tok_diet_tide :
    calculate_token_similarity (tokenize_text ("diet").data)
      (tokenize_text ("tide").data) = 0 := by
  rw [tokSim_eval _ _ 0 2 (by decide) (by decide) (by decide) (by decide) (by decide)]
  norm_num

/-- C5 (counterexample): `score_pair` is not symmetric:
`score_pair("tide","diet") = 0.1` but `score_pair("diet","tide") = 0.2`,
because `SequenceMatcher.ratio` depends on the argument order (its
greedy longest-match tie-breaking differs between the two orders). -/
theorem c5_counterexample :
    combinedSimilarity ("tide").data ("diet").data ≠
      combinedSimilarity ("diet").data ("tide").data := by
  have h1 : combinedSimilarity ("tide").data ("diet").data = 1 / 10 := by
    unfold combinedSimilarity
    rw [cs_tide_diet, tok_tide_diet]
    norm_num
  have h2 : combinedSimilarity ("diet").data ("tide").data = 1 / 5 := by
    unfold combinedSimilarity
    rw [cs_diet_tide, tok_diet_tide]
    norm_num
  rw [h1, h2]
  norm_num

/-- Concrete evaluation: the character ratio of `ab` against `ba` is
1/2, in either argument order. -/
theorem cs_ab_ba : calculate_similarity ("ab").data ("ba").data = 1 / 2 := by
  unfold calculate_similarity
  rw [seqRt_eval _ _ 1 2 2 (by decide) (by decide) (by decide) (by norm_num)]
  norm_num

/-- Concrete evaluation: the character ratio of `ba` against `ab` is
1/2. -/
theorem cs_ba_ab : calculate_similarity ("ba").data ("ab").data = 1 / 2 := by
  unfold calculate_similarity
  rw [seqRt_eval _ _ 1 2 2 (by decide) (by decide) (by decide) (by norm_num)]
  norm_num

/-- C5 (witness): the amended statement applied at the titles `ab` and
`ba`, whose character ratios agree in the two orders, so the combined
score is symmetric there. -/
theorem c5_symmetry_witness :
    calculate_token_similarity (tokenize_text ("ab").data)
        (tokenize_text ("ba").data) =
      calculate_token_similarity (tokenize_text ("ba").data)
        (tokenize_text ("ab").data) ∧
    combinedSimilarity ("ab").data ("ba").data =
      combinedSimilarity ("ba").data ("ab").data :=
  ⟨(c5_symmetry ("ab").data ("ba").data).1,
   (c5_symmetry ("ab").data ("ba").data).2 (by rw [cs_ab_ba, cs_ba_ab])⟩

/-- The relevance score is nonnegative. -/
theorem relevance_nonneg (t s : Str) : 0 ≤ relevanceScore t s := by
  unfold relevanceScore
  positivity

/-- The relevance score is at most 1: the word overlap is no larger
than either word set, hence no larger than the larger of the two. -/
theorem relevance_le_one (t s : Str) : relevanceScore t s ≤ 1 := by
  unfold relevanceScore
  dsimp only
  have hc : ((wsSplit (pyLower s)).toFinset ∩ (extract_keywords t).toFinset).card ≤
      max (extract_keywords t).toFinset.card (wsSplit (pyLower s)).toFinset.card :=
    le_trans (Finset.card_le_card Finset.inter_subset_left) (le_max_right _ _)
  have hcq : (((wsSplit (pyLower s)).toFinset ∩ (extract_keywords t).toFinset).card : ℚ) ≤
      ((extract_keywords t).toFinset.card : ℚ) ⊔ ((wsSplit (pyLower s)).toFinset.card : ℚ) := by
    rw [← Nat.cast_max]
    exact_mod_cast hc
  rcases Nat.eq_zero_or_pos
      (max (extract_keywords t).toFinset.card (wsSplit (pyLower s)).toFinset.card) with
    hm | hm
  · have h0 : ((wsSplit (pyLower s)).toFinset ∩ (extract_keywords t).toFinset).card = 0 :=
      le_antisymm (hm ▸ hc) (Nat.zero_le _)
    obtain ⟨hA, hB⟩ := Nat.max_eq_zero_iff.mp hm
    rw [h0, hA, hB]
    norm_num
  · have hmq : (0 : ℚ) <
        ((extract_keywords t).toFinset.card : ℚ) ⊔ ((wsSplit (pyLower s)).toFinset.card : ℚ) := by
      rw [← Nat.cast_max]
      exact_mod_cast hm
    rw [div_le_one hmq]
    exact hcq

/-- The filtering fold of `find_related_issues` keeps an issue exactly
when its relevance reaches the 0.2 threshold: the `len(common) > 0`
guard is redundant, since an empty overlap forces relevance 0. -/
theorem relEntriesFold_eq (t : Str) (items : List Issue) :
    items.foldl
      (fun acc it =>
        let common := (wsSplit (pyLower it.title)).toFinset ∩
          (extract_keywords t).toFinset
        if 0 < common.card then
          let rel : ℚ := relevanceScore t it.title
          if (1 / 5 : ℚ) ≤ rel then acc ++ [mkRelEntry it rel] else acc
        else acc)
      []
    = (items.filter (fun it => decide ((1 / 5 : ℚ) ≤ relevanceScore t it.title))).map
        (fun it => mkRelEntry it (relevanceScore t it.title)) := by
  suffices h : ∀ (l : List Issue) (acc : List ScoredEntry),
      l.foldl
        (fun acc it =>
          let common := (wsSplit (pyLower it.title)).toFinset ∩
            (extract_keywords t).toFinset
          if 0 < common.card then
            let rel : ℚ := relevanceScore t it.title
            if (1 / 5 : ℚ) ≤ rel then acc ++ [mkRelEntry it rel] else acc
          else acc)
        acc
      = acc ++ (l.filter (fun it => decide ((1 / 5 : ℚ) ≤ relevanceScore t it.title))).map
          (fun it => mkRelEntry it (relevanceScore t it.title)) by
    simpa using h items []
  intro l
  induction l with
  | nil => intro acc; simp
  | cons it rest ih =>
    intro acc
    simp only [List.foldl_cons, List.filter_cons]
    by_cases h0 : 0 <
        ((wsSplit (pyLower it.title)).toFinset ∩ (extract_keywords t).toFinset).card
    · by_cases hr : (1 / 5 : ℚ) ≤ relevanceScore t it.title
      · simp only [if_pos h0, if_pos hr]
        rw [ih, if_pos (decide_eq_true hr), List.map_cons, List.append_assoc]
        rfl
      · simp only [if_pos h0, if_neg hr]
        rw [ih, if_neg (by simpa using hr)]
    · have hcard : ((wsSplit (pyLower it.title)).toFinset ∩
          (extract_keywords t).toFinset).card = 0 := by omega
      have hrel : relevanceScore t it.title = 0 := by
        unfold relevanceScore
        dsimp only
        rw [hcard]
        norm_num
      have hr : ¬ (1 / 5 : ℚ) ≤ relevanceScore t it.title := by
        rw [hrel]
        norm_num
      simp only [if_neg h0]
      rw [ih, if_neg (by simpa using hr)]

/-- C7: the related-issue channel keeps a candidate issue exactly when
its relevance — the number of words common to the keyword set and the
issue's title-word set, divided by the larger of the two set sizes —
reaches the 0.2 threshold, storing the rounded relevance; and every
relevance value lies in [0, 1].  The keyword set is the lower-cased
words of the task title strictly longer than 3 characters, or the whole
lower-cased title when no word qualifies (`extract_keywords`). -/
theorem c7_relevance (t : Str) (items : List Issue) :
    find_related_issues t items =
      sortDesc
        ((items.filter (fun it => decide ((1 / 5 : ℚ) ≤ relevanceScore t it.title))).map
          (fun it => mkRelEntry it (relevanceScore t it.title))) ∧
    ∀ s : Str, 0 ≤ relevanceScore t s ∧ relevanceScore t s ≤ 1 := by
  constructor
  · unfold find_related_issues
    rw [relEntriesFold_eq]
  · exact fun s => ⟨relevance_nonneg t s, relevance_le_one t s⟩

/-- C8 (counterexample): a run in which the tracker issue is created
successfully but the local task-file write raises (the exception is
caught at scripts/start_task.py lines 519-521) terminates with exit
code 0, a newly created issue, and no local task file — partial state
does leak when the final write fails. -/
theorem c8_counterexample :
    (mainRun c8badInput).createdNew = true ∧
    (mainRun c8badInput).fileWritten = false ∧
    (mainRun c8badInput).exitCode = 0 := by
  decide

/-- C8 (amended): provided the local task-file write itself succeeds
(and the tracker returns a truthy, nonzero issue number, as GitHub
does), no run terminates with a newly created issue and no local task
file; and the task file is only ever written when an issue number is in
hand — the write is gated on successful issue creation or selection. -/
theorem c8_write_gated (inp : MainInputs) (hw : inp.writeOk = true)
    (hc : inp.createResult.map Prod.fst ≠ some 0) :
    ((mainRun inp).createdNew = true → (mainRun inp).fileWritten = true) ∧
    ((mainRun inp).fileWritten = true → (mainRun inp).issueNumber.isSome = true) := by
  have hfp : ∀ (x : Nat) (c : Bool),
      ((finalPhase inp x c).createdNew = true →
        (finalPhase inp x c).fileWritten = true) ∧
      ((finalPhase inp x c).fileWritten = true →
        (finalPhase inp x c).issueNumber.isSome = true) := by
    intro x c
    unfold finalPhase
    simp [hw]
  unfold mainRun
  split
  · simp
  · split
    · simp
    · dsimp only
      split
      · split
        · exact hfp _ _
        · simp
      · split
        · exact hfp _ _
        · split
          · simp
          · rename_i n u heq
            split
            · rename_i hn0
              exact absurd (by rw [heq, hn0]; rfl : Option.map Prod.fst inp.createResult = some 0) hc
            · exact hfp _ _

/-- C8 (witness): the amended statement applied at a concrete run whose
task-file write succeeds. -/
theorem c8_write_gated_witness :
    ((mainRun c8goodInput).createdNew = true →
      (mainRun c8goodInput).fileWritten = true) ∧
    ((mainRun c8goodInput).fileWritten = true →
      (mainRun c8goodInput).issueNumber.isSome = true) :=
  c8_write_gated c8goodInput (by decide) (by decide)

/-- Prefix tests extend along appended tails. -/
theorem isPre_append (n xs ys : Str) (h : isPre n xs = true) :
    isPre n (xs ++ ys) = true := by
  induction n generalizing xs with
  | nil => rfl
  | cons c cs ih =>
    cases xs with
    | nil => simp [isPre] at h
    | cons x xt =>
      simp only [List.cons_append, isPre, Bool.and_eq_true] at h ⊢
      exact ⟨h.1, ih xt h.2⟩

/-- A list is a prefix of itself followed by anything. -/
theorem isPre_self_append (n ys : Str) : isPre n (n ++ ys) = true := by
  induction n with
  | nil => rfl
  | cons c cs ih => simp [isPre, ih]

/-- Dropping past the first part of an append. -/
theorem drop_append_len (l t : Str) (i : Nat) :
    (l ++ t).drop (l.length + i) = t.drop i := by
  induction l with
  | nil => simp
  | cons c cs ih => simp [Nat.succ_add, ih]

/-- Substring occurrence is preserved when text is appended on the
right. -/
theorem containsSub_append_left (hay t n : Str)
    (h : containsSub hay n = true) : containsSub (hay ++ t) n = true := by
  unfold containsSub at h ⊢
  rw [List.any_eq_true] at h ⊢
  obtain ⟨i, hi, hp⟩ := h
  rw [List.mem_range] at hi
  refine ⟨i, ?_, ?_⟩
  · rw [List.mem_range, List.length_append]
    omega
  · rw [List.drop_append_of_le_length (by omega)]
    exact isPre_append _ _ _ hp

/-- Substring occurrence is preserved when text is prepended on the
left. -/
theorem containsSub_append_right (hay t n : Str)
    (h : containsSub t n = true) : containsSub (hay ++ t) n = true := by
  unfold containsSub at h ⊢
  rw [List.any_eq_true] at h ⊢
  obtain ⟨i, hi, hp⟩ := h
  rw [List.mem_range] at hi
  refine ⟨hay.length + i, ?_, ?_⟩
  · rw [List.mem_range, List.length_append]
    omega
  · rw [drop_append_len]
    exact hp

/-- The freshly written section contains the section header (at
position 1, after the leading newline). -/
theorem containsSub_headerBlock (v : Str) :
    containsSub (headerBlock v) verificationHeader = true := by
  unfold containsSub
  rw [List.any_eq_true]
  refine ⟨1, ?_, ?_⟩
  · rw [List.mem_range]
    simp [headerBlock]
  · show isPre verificationHeader ((headerBlock v).drop 1) = true
    unfold headerBlock
    exact isPre_self_append _ _

/-- When the section header is already present, an append adds only a
bare entry line. -/
theorem appendVerification_of_contains (content v : Str)
    (h : containsSub content verificationHeader = true) :
    appendVerification content v = content ++ dashEntry v := by
  unfold appendVerification
  rw [if_pos h]

/-- C9: appending a verification result keeps the prior file content as
an unchanged prefix; the section header is written exactly when it is
not already present; and any second append adds only a bare entry line,
never a second header, because the first append leaves the header
present in the file. -/
theorem c9_append_verification (content v1 v2 : Str) :
    (∃ s, appendVerification content v1 = content ++ s) ∧
    (containsSub content verificationHeader = true →
      appendVerification content v1 = content ++ dashEntry v1) ∧
    (containsSub content verificationHeader = false →
      appendVerification content v1 = content ++ headerBlock v1) ∧
    appendVerification (appendVerification content v1) v2 =
      appendVerification content v1 ++ dashEntry v2 := by
  have hkey : containsSub (appendVerification content v1) verificationHeader = true := by
    unfold appendVerification
    by_cases h : containsSub content verificationHeader = true
    · rw [if_pos h]
      exact containsSub_append_left _ _ _ h
    · rw [if_neg h]
      exact containsSub_append_right _ _ _ (containsSub_headerBlock v1)
  refine ⟨?_, fun h => appendVerification_of_contains content v1 h, ?_, ?_⟩
  · by_cases h : containsSub content verificationHeader = true
    · exact ⟨dashEntry v1, by unfold appendVerification; rw [if_pos h]⟩
    · exact ⟨headerBlock v1, by unfold appendVerification; rw [if_neg h]⟩
  · intro h
    unfold appendVerification
    rw [if_neg (by simp [h])]
  · exact appendVerification_of_contains _ v2 hkey

/-- C9 (witness): the append behaviour at a concrete task file: the
first append creates the section, the second adds only an entry line. -/
theorem c9_append_verification_witness :
    appendVerification ("# T\n").data ("ok").data =
      ("# T\n").data ++ headerBlock ("ok").data ∧
    appendVerification (appendVerification ("# T\n").data ("ok").data) ("ok2").data =
      appendVerification ("# T\n").data ("ok").data ++ dashEntry ("ok2").data :=
  ⟨(c9_append_verification ("# T\n").data ("ok").data ("ok2").data).2.2.1 (by decide),
   (c9_append_verification ("# T\n").data ("ok").data ("ok2").data).2.2.2⟩

/-- C10 (amended): every candidate entry stores the combined similarity
rounded to two decimal places, and the candidate list is ranked in
descending order of these rounded scores; hence two issues whose raw
scores round to the same hundredth compare as tied — but a raw
difference below 0.005 does not guarantee a tie (see the
counterexample, where scores 0.00499 apart round to different
hundredths). -/
theorem c10_rounded_ranking (title : Str) (issues : List Issue) (th : ℚ) :
    (∀ e ∈ (find_similar_issues title issues th).2.2, ∃ i ∈ issues,
      e.number = i.number ∧ e.score = pyRound2 (combinedSimilarity title i.title)) ∧
    ((find_similar_issues title issues th).2.2).Pairwise (fun u v => v.score ≤ u.score) := by
  by_cases h : issues = []
  · subst h
    constructor
    · intro e he
      unfold find_similar_issues at he
      simp at he
    · unfold find_similar_issues
      simp
  · rw [find_similar_snd title issues th h]
    constructor
    · intro e he
      rw [mem_sortDesc, simEntriesFold_eq] at he
      simp only [List.mem_map, List.mem_filter] at he
      obtain ⟨i, ⟨hi, _⟩, rfl⟩ := he
      exact ⟨i, hi, rfl, rfl⟩
    · exact sortDesc_sorted _

/-- Concrete evaluation: the character similarity of the C10 query with
the first issue title. -/
theorem cs_c10a : calculate_similarity tC10q tC10a = 10 / 13 := by
  unfold calculate_similarity
  rw [seqRt_eval _ _ 15 18 21 (by decide) (by decide) (by decide) (by norm_num)]
  norm_num

/-- Concrete evaluation: the character similarity of the C10 query with
the second issue title. -/
theorem cs_c10b : calculate_similarity tC10q tC10b = 28 / 37 := by
  unfold calculate_similarity
  rw [seqRt_eval _ _ 14 18 19 (by decide) (by decide) (by decide) (by norm_num)]
  norm_num

/-- Concrete evaluation: the combined score of the C10 query with the
first issue title is 373/325 ≈ 1.1477. -/
theorem combined_c10a : combinedSimilarity tC10q tC10a = 373 / 325 := by
  unfold combinedSimilarity
  rw [cs_c10a,
    tokSim_eval _ _ 4 4 (by decide) (by decide) (by decide) (by decide) (by decide)]
  norm_num

/-- Concrete evaluation: the combined score of the C10 query with the
second issue title is 1057/925 ≈ 1.1427. -/
theorem combined_c10b : combinedSimilarity tC10q tC10b = 1057 / 925 := by
  unfold combinedSimilarity
  rw [cs_c10b,
    tokSim_eval _ _ 4 4 (by decide) (by decide) (by decide) (by decide) (by decide)]
  norm_num

/-- C10 (counterexample): two issue titles whose raw combined scores
against the query differ by 12/2405 < 0.005 are stored with different
rounded scores (1.15 versus 1.14) and therefore do not compare as tied
in the rounded ranking; both clear the default 0.7 threshold, so both
appear in the candidate list. -/
theorem c10_counterexample :
    |combinedSimilarity tC10q tC10a - combinedSimilarity tC10q tC10b| < 1 / 200 ∧
    pyRound2 (combinedSimilarity tC10q tC10a) = 23 / 20 ∧
    pyRound2 (combinedSimilarity tC10q tC10b) = 57 / 50 ∧
    pyRound2 (combinedSimilarity tC10q tC10a) ≠
      pyRound2 (combinedSimilarity tC10q tC10b) ∧
    (7 / 10 : ℚ) ≤ combinedSimilarity tC10q tC10a ∧
    (7 / 10 : ℚ) ≤ combinedSimilarity tC10q tC10b := by
  have ha : pyRound2 (combinedSimilarity tC10q tC10a) = 23 / 20 := by
    rw [combined_c10a,
      pyRound2_eval_hi (373 / 325 : ℚ) 114 (by norm_num) (by norm_num) (by norm_num)]
    norm_num
  have hb : pyRound2 (combinedSimilarity tC10q tC10b) = 57 / 50 := by
    rw [combined_c10b,
      pyRound2_eval_lo (1057 / 925 : ℚ) 114 (by norm_num) (by norm_num) (by norm_num)]
    norm_num
  refine ⟨?_, ha, hb, ?_, ?_, ?_⟩
  · rw [combined_c10a, combined_c10b]
    rw [abs_sub_lt_iff]
    constructor <;> norm_num
  · rw [ha, hb]
    norm_num
  · rw [combined_c10a]
    norm_num
  · rw [combined_c10b]
    norm_num

/-- C10 (witness): the amended statement applied at the concrete C10
issue list: each stored score is the rounded raw score. -/
theorem c10_rounded_ranking_witness :
    ∃ i ∈ [⟨1, tC10a, ("open").data, ("u1").data⟩,
           ⟨2, tC10b, ("open").data, ("u2").data⟩],
      (mkSimEntry (⟨1, tC10a, ("open").data, ("u1").data⟩ : Issue)
          (combinedSimilarity tC10q tC10a)).number = Issue.number i ∧
      (mkSimEntry (⟨1, tC10a, ("open").data, ("u1").data⟩ : Issue)
          (combinedSimilarity tC10q tC10a)).score =
        pyRound2 (combinedSimilarity tC10q (Issue.title i)) :=
  (c10_rounded_ranking tC10q
      [⟨1, tC10a, ("open").data, ("u1").data⟩,
       ⟨2, tC10b, ("open").data, ("u2").data⟩] 0).1
    _ (by
      rw [find_similar_snd _ _ _ (by simp), mem_sortDesc, simEntriesFold_eq]
      simp only [List.mem_map, List.mem_filter]
      exact ⟨⟨1, tC10a, ("open").data, ("u1").data⟩,
        ⟨by simp, by rw [decide_eq_true_eq, combined_c10a]; norm_num⟩, rfl⟩)

end WorkflowGuide
